import Mathlib

/-!
# Verification of the NWS weather scrape pipeline (`dw_weather_scrape.py`)

A shallow embedding of the extraction / normalization / load pipeline in
`src/drew-work/dw_weather_scrape.py`, together with theorems settling the
frozen claims about it.

Modelling conventions:
* Python strings are modelled as `List Char` (with `String` at the record
  boundary); Python regular-expression extraction is modelled by executable
  scanners that reproduce the leftmost-match-with-backtracking semantics of
  the concrete patterns used in the source (`(\d+)`, `(\d+).*?(\d+)`,
  `(\d+\.\d+|\d+)`, `[-+]?\d*\.\d+|\d+`).
* Python floats are modelled as exact rationals (`ℚ`).  Every rounding site
  in the source rounds values that are never half-way points, so exact
  rational rounding agrees with the float banker's rounding performed by
  pandas/numpy on the inputs of interest.
* Code that raises an exception is modelled with `Except String`; the string
  names the Python exception.  A pandas column operation that raises aborts
  the whole `transform_weather_data` call, which the embedding reproduces by
  sequencing column passes with `Except.bind` in source order.
* The `df.to_json` / `pd.read_json` round trip between the tasks is modelled
  as the identity on the record batch.
-/

namespace Weather

instance {ε α : Type} [DecidableEq ε] [DecidableEq α] : DecidableEq (Except ε α) := fun x y =>
  match x, y with
  | .ok a, .ok b => if h : a = b then .isTrue (by rw [h]) else .isFalse (by simp [h])
  | .error a, .error b => if h : a = b then .isTrue (by rw [h]) else .isFalse (by simp [h])
  | .ok _, .error _ => .isFalse (by simp)
  | .error _, .ok _ => .isFalse (by simp)

/-! ## Python string and regex primitives -/

/-- Numeric value of a list of decimal digit characters (most significant first). -/
def digitsVal (ds : List Char) : ℕ :=
  ds.foldl (fun a c => 10 * a + (c.toNat - 48)) 0

/-- Scan for the first maximal run of decimal digits; return the run and the
suffix that follows it.  This is the shared first step of every `\d+`-based
pattern in the source. -/
def firstRunSplit : List Char → Option (List Char × List Char)
  | [] => none
  | c :: rest =>
    if c.isDigit then
      some (c :: rest.takeWhile Char.isDigit, rest.dropWhile Char.isDigit)
    else
      firstRunSplit rest

/-- Model of `str.extract("(\d+)")`: the first integer substring, if any. -/
def firstNatRun (xs : List Char) : Option ℕ :=
  (firstRunSplit xs).map (fun p => digitsVal p.1)

/-- Model of `str.extract("(\d+).*?(\d+)")`: two integer groups.  With two digit runs
present the groups are the first two maximal runs; with a single run of at
least two digits the regex backtracks and splits its last digit off into the
second group; otherwise there is no match. -/
def extractPairNat (xs : List Char) : Option (ℕ × ℕ) :=
  match firstRunSplit xs with
  | none => none
  | some (r1, rest) =>
    match firstRunSplit rest with
    | some (r2, _) => some (digitsVal r1, digitsVal r2)
    | none =>
      if 2 ≤ r1.length then some (digitsVal r1 / 10, digitsVal r1 % 10) else none

/-- Model of `str.extract("(\d+\.\d+|\d+)")`: first decimal-or-integer number. -/
def firstDecOrInt (xs : List Char) : Option ℚ :=
  match firstRunSplit xs with
  | none => none
  | some (r, rest) =>
    match rest with
    | '.' :: rest2 =>
      let fp := rest2.takeWhile Char.isDigit
      if fp = [] then some (digitsVal r)
      else some ((digitsVal r : ℚ) + (digitsVal fp : ℚ) / 10 ^ fp.length)
    | _ => some (digitsVal r)

/-- Python `s.split(", ")` (used by pandas `str.split(", ")`): split on every
occurrence of the two-character separator. -/
def splitCommaSpace : List Char → List (List Char)
  | [] => [[]]
  | ',' :: ' ' :: rest => [] :: splitCommaSpace rest
  | c :: rest =>
    match splitCommaSpace rest with
    | h :: t => (c :: h) :: t
    | [] => [[c]]

example : splitCommaSpace "A, B, C".data = ["A".data, "B".data, "C".data] := by decide

/-- Python `s.split()[0]`: first whitespace-delimited word, `none` when the
string has no word (where the subscript raises `IndexError`). -/
def pyFirstWord (xs : List Char) : Option (List Char) :=
  let t := (xs.dropWhile Char.isWhitespace).takeWhile (fun c => !c.isWhitespace)
  if t = [] then none else some t

/-- Python `float(s)` on the decimal forms that occur in the feed: an optional
sign, integer digits, and an optional fractional part (no exponent). -/
def parseUnsignedFloat (xs : List Char) : Option ℚ :=
  let ip := xs.takeWhile Char.isDigit
  match xs.dropWhile Char.isDigit with
  | [] => if ip = [] then none else some (digitsVal ip)
  | '.' :: rest2 =>
    let fp := rest2.takeWhile Char.isDigit
    if rest2.dropWhile Char.isDigit = [] ∧ ¬(ip = [] ∧ fp = []) then
      some ((digitsVal ip : ℚ) + (digitsVal fp : ℚ) / 10 ^ fp.length)
    else none
  | _ => none

/-- Python `float(s)` with sign handling. -/
def parsePyFloat : List Char → Option ℚ
  | '-' :: xs => (parseUnsignedFloat xs).map (fun q => -q)
  | '+' :: xs => parseUnsignedFloat xs
  | xs => parseUnsignedFloat xs

/-- Python `int(s)`: optional sign followed by digits only. -/
def parsePyInt : List Char → Option ℤ
  | '-' :: xs => if xs ≠ [] ∧ xs.all Char.isDigit then some (-(digitsVal xs : ℤ)) else none
  | '+' :: xs => if xs ≠ [] ∧ xs.all Char.isDigit then some (digitsVal xs : ℤ) else none
  | xs => if xs ≠ [] ∧ xs.all Char.isDigit then some (digitsVal xs : ℤ) else none

/-- One attempted match of `[-+]?\d*\.\d+|\d+` at the head of the list:
the matched token and the suffix after it. -/
def tryNum (xs : List Char) : Option (List Char × List Char) :=
  let alt1 : Option (List Char × List Char) :=
    let sgnSplit : List Char × List Char :=
      match xs with
      | '-' :: t => (['-'], t)
      | '+' :: t => (['+'], t)
      | t => ([], t)
    let ip := sgnSplit.2.takeWhile Char.isDigit
    match sgnSplit.2.dropWhile Char.isDigit with
    | '.' :: zs =>
      let fp := zs.takeWhile Char.isDigit
      if fp = [] then none
      else some (sgnSplit.1 ++ ip ++ '.' :: fp, zs.dropWhile Char.isDigit)
    | _ => none
  match alt1 with
  | some r => some r
  | none =>
    match xs with
    | c :: t => if c.isDigit then some (c :: t.takeWhile Char.isDigit, t.dropWhile Char.isDigit) else none
    | [] => none

/-- Worker for `re.findall(r"[-+]?\d*\.\d+|\d+", s)`: scan left to right, emitting each
non-overlapping match.  The fuel argument (initially the length of the input)
only serves the termination checker; every recursive call strictly shrinks
the list, so the fuel is never exhausted. -/
def numTokensGo : ℕ → List Char → List (List Char)
  | 0, _ => []
  | _, [] => []
  | fuel + 1, c :: rest =>
    match tryNum (c :: rest) with
    | some (tok, after) => tok :: numTokensGo fuel after
    | none => numTokensGo fuel rest

/-- Model of `re.findall(r"[-+]?\d*\.\d+|\d+", s)`. -/
def numTokens (xs : List Char) : List (List Char) :=
  numTokensGo xs.length xs

/-- Rounding to two decimal places (pandas `.round(2)` on the values of
interest, which are never half-way points at the third decimal). -/
def round2 (q : ℚ) : ℚ := (round (q * 100) : ℚ) / 100

example : digitsVal ['7', '2'] = 72 := by decide
example : firstNatRun "72°F".data = some 72 := by decide
example : extractPairNat "-5°F (-21°C)".data = some (5, 21) := by decide
example : extractPairNat "45".data = some (4, 5) := by decide
example : extractPairNat "7".data = none := by decide
example : splitCommaSpace "Denver, CO".data = ["Denver".data, "CO".data] := by decide
example : splitCommaSpace "Denver".data = ["Denver".data] := by decide
example : parsePyFloat "-104.992".data = some (-(104992 : ℚ) / 1000) := by
  simp +decide [parsePyFloat, parseUnsignedFloat, digitsVal]
  norm_num
example : numTokens "Lat: 45.51°N Lon: 122.68°W Elev: 200ft".data =
    ["45.51".data, "122.68".data, "200".data] := by decide
example : firstDecOrInt "10.00 mi".data = some 10 := by
  simp +decide [firstDecOrInt, firstRunSplit, digitsVal]

/-! ## Extractor (`scrape_weather_data`) -/

/-- The parts of a fetched forecast page that the extractor inspects:
the `h2.panel-title` heading, the `span.smallTxt` block, the
`p.myforecast-current-lrg` readout, and the labelled table rows (each row is
the label cell's text paired with the text of the `td` that follows it).
A `none` component means `soup.find` returns `None` for that marker. -/
structure Page where
  panelTitle : Option String
  smallTxt : Option String
  forecastLrg : Option String
  rows : List (String × String)
  deriving DecidableEq

/-- One configured target: a display name and the page address. -/
structure City where
  name : String
  url : String
  deriving DecidableEq

/-- The module-level `CITIES` list of the source. -/
def CITIES : List City := [
  ⟨"Portland, OR", "https://forecast.weather.gov/MapClick.php?lat=45.5118&lon=-122.6756"⟩,
  ⟨"San Diego, CA", "https://forecast.weather.gov/MapClick.php?lat=32.7157&lon=-117.1617"⟩,
  ⟨"Duluth, MN", "https://forecast.weather.gov/MapClick.php?lat=46.788&lon=-92.0998"⟩,
  ⟨"Minneapolis, MN", "https://forecast.weather.gov/MapClick.php?lat=44.979&lon=-93.2649"⟩,
  ⟨"Salt Lake City, UT", "https://forecast.weather.gov/MapClick.php?zoneid=UTZ105&zflg=1"⟩,
  ⟨"Denver, CO", "https://forecast.weather.gov/MapClick.php?lat=39.74&lon=-104.992"⟩,
  ⟨"San Francisco, CA", "https://forecast.weather.gov/MapClick.php?lat=37.7771&lon=-122.4197"⟩,
  ⟨"New York City, NY", "https://forecast.weather.gov/MapClick.php?lat=40.7143&lon=-74.006"⟩,
  ⟨"Portland, ME", "https://forecast.weather.gov/MapClick.php?lat=43.6592&lon=-70.2567"⟩,
  ⟨"Seattle, WA", "https://forecast.weather.gov/MapClick.php?lat=47.6036&lon=-122.3294"⟩,
  ⟨"Baltimore, MD", "https://forecast.weather.gov/MapClick.php?lat=39.2906&lon=-76.6093"⟩]

/-- Model of `soup.find("td", text=label).find_next("td").text` with the
`if elem else None` guard: the value of the first table row carrying the
label, or `none` when the label is absent. -/
def findRow (rows : List (String × String)) (label : String) : Option String :=
  (rows.find? (fun p => p.1 == label)).map (fun p => p.2)

/-- The unvalidated per-city record appended by the extractor loop.
`lat`, `lon`, `elev` hold the three numeric tokens of the small-text block
(the loop raises before appending when those are not exactly three, so they
are never null in an emitted record). -/
structure RawRecord where
  location : String
  lat : String
  lon : String
  elev : String
  temperature : Option String
  humidity : Option String
  wind_speed : Option String
  barometer : Option String
  dewpoint : Option String
  vis_miles : Option String
  wind_chill : Option String
  last_update : Option String
  deriving DecidableEq, Inhabited

/-- The body of the extractor loop for one fetched page.  An absent
small-text block raises `AttributeError` (only the `requests.get` call sits
inside the `try`), and a token count other than three raises `ValueError`
from tuple unpacking; both abort the whole task. -/
def extractOne (city : City) (p : Page) : Except String RawRecord :=
  match p.smallTxt with
  | none => .error "AttributeError: NoneType object has no attribute text"
  | some st =>
    match numTokens st.data with
    | [la, lo, el] =>
      .ok { location := city.name
            lat := ⟨la⟩
            lon := ⟨lo⟩
            elev := ⟨el⟩
            temperature := p.forecastLrg
            humidity := findRow p.rows "Humidity"
            wind_speed := findRow p.rows "Wind Speed"
            barometer := findRow p.rows "Barometer"
            dewpoint := findRow p.rows "Dewpoint"
            vis_miles := findRow p.rows "Visibility"
            wind_chill := findRow p.rows "Wind Chill"
            last_update := findRow p.rows "Last update" }
    | _ => .error "ValueError: expected exactly 3 numeric tokens"

/-- Model of `scrape_weather_data`, with the fetch collaborator passed explicitly:
`fetch c = none` models `requests.get` raising, which the `try/except` turns
into `continue`; any exception later in the loop body propagates and kills
the whole task, losing every record. -/
def scrape (fetch : City → Option Page) : List City → Except String (List RawRecord)
  | [] => .ok []
  | c :: cs =>
    match fetch c with
    | none => scrape fetch cs
    | some p => do
      let r ← extractOne c p
      let rs ← scrape fetch cs
      .ok (r :: rs)

/-- Whether an `Except` computation finished without raising. -/
def isOk {α : Type} (e : Except String α) : Bool :=
  match e with
  | .ok _ => true
  | .error _ => false

/-! ## Timestamps (model of `dateutil.parser.parse` / `datetime`) -/

/-- A wall-clock reading, the payload of a Python `datetime` (microseconds are
always zero for the inputs covered here). -/
structure DT where
  year : ℤ
  month : ℕ
  day : ℕ
  hour : ℕ
  minute : ℕ
  second : ℕ
  deriving DecidableEq, Inhabited

/-- Gregorian leap-year rule (Python `calendar.isleap`). -/
def isLeap (y : ℤ) : Bool :=
  (y % 4 == 0 && y % 100 != 0) || (y % 400 == 0)

/-- Length of a month. -/
def daysInMonth (y : ℤ) (m : ℕ) : ℕ :=
  if m = 2 then (if isLeap y then 29 else 28)
  else if m = 4 ∨ m = 6 ∨ m = 9 ∨ m = 11 then 30
  else 31

/-- The range invariant Python `datetime` enforces on construction. -/
def ValidDT (dt : DT) : Prop :=
  1 ≤ dt.year ∧ dt.year ≤ 9999 ∧ 1 ≤ dt.month ∧ dt.month ≤ 12 ∧
  1 ≤ dt.day ∧ dt.day ≤ daysInMonth dt.year dt.month ∧
  dt.hour < 24 ∧ dt.minute < 60 ∧ dt.second < 60

instance : DecidablePred ValidDT := fun dt => by
  unfold ValidDT
  infer_instance

/-- Calendar successor of a day. -/
def nextDay (dt : DT) : DT :=
  if dt.day < daysInMonth dt.year dt.month then { dt with day := dt.day + 1 }
  else if dt.month < 12 then { dt with month := dt.month + 1, day := 1 }
  else { dt with year := dt.year + 1, month := 1, day := 1 }

/-- Calendar predecessor of a day. -/
def prevDay (dt : DT) : DT :=
  if 1 < dt.day then { dt with day := dt.day - 1 }
  else if 1 < dt.month then { dt with month := dt.month - 1, day := daysInMonth dt.year (dt.month - 1) }
  else { dt with year := dt.year - 1, month := 12, day := 31 }

/-- Seconds since local midnight. -/
def secondsOfDay (dt : DT) : ℤ :=
  dt.hour * 3600 + dt.minute * 60 + dt.second

/-- Replace the time-of-day fields from a seconds-of-day count. -/
def withSOD (dt : DT) (sod : ℕ) : DT :=
  { dt with hour := sod / 3600, minute := sod % 3600 / 60, second := sod % 60 }

/-- Python `datetime` plus `timedelta(seconds = d)` for a shift smaller than
one day in magnitude (Python requires a tzinfo `utcoffset` strictly between
-1 day and 1 day, so `astimezone` only ever shifts by such a `d`), together
with the `datetime` year-range check (`OverflowError` outside 1..9999 is the
`none` case). -/
def addSecondsV (dt : DT) (d : ℤ) : Option DT :=
  if d ≤ -86400 ∨ 86400 ≤ d then none
  else
    let t := secondsOfDay dt + d
    let dt' := if t < 0 then withSOD (prevDay dt) (t + 86400).toNat
               else if t < 86400 then withSOD dt t.toNat
               else withSOD (nextDay dt) (t - 86400).toNat
    if 1 ≤ dt'.year ∧ dt'.year ≤ 9999 then some dt' else none

/-- Split a character list on a single separator character. -/
def splitOnChar (sep : Char) : List Char → List (List Char)
  | [] => [[]]
  | c :: rest =>
    if c = sep then [] :: splitOnChar sep rest
    else
      match splitOnChar sep rest with
      | h :: t => (c :: h) :: t
      | [] => [[c]]

/-- Whether a token is a nonempty run of digits. -/
def allDigits (xs : List Char) : Bool :=
  !xs.isEmpty && xs.all Char.isDigit

/-- Model of `dateutil.parser.parse` on the timestamp grammar exercised here:
`"YYYY-MM-DD HH:MM:SS"` optionally followed by an alphabetic zone token.
The result pairs the naive wall-clock reading with the zone name, `none` when
the text does not parse (where `dateutil` raises `ParserError`). -/
def parseLastUpdate (xs : List Char) : Option (DT × Option String) :=
  let toks := (splitOnChar ' ' xs).filter (fun t => !t.isEmpty)
  let core : Option (List Char × List Char × Option (List Char)) :=
    match toks with
    | [d, t] => some (d, t, none)
    | [d, t, z] => if z.all Char.isAlpha then some (d, t, some z) else none
    | _ => none
  match core with
  | none => none
  | some (d, t, z) =>
    match splitOnChar '-' d, splitOnChar ':' t with
    | [ys, ms, ds], [hs, mis, ss] =>
      if allDigits ys && ys.length == 4 && allDigits ms && allDigits ds &&
         allDigits hs && allDigits mis && allDigits ss then
        let dt : DT := ⟨digitsVal ys, digitsVal ms, digitsVal ds,
                        digitsVal hs, digitsVal mis, digitsVal ss⟩
        if ValidDT dt then some (dt, z.map (fun w => (⟨w⟩ : String))) else none
      else none
    | _, _ => none

/-- The `tzinfos` table passed to `dateutil.parser.parse` at line 225 of the
source: the single entry mapping `"CST"` to a fixed −21600 s offset. -/
def tzinfos : List (String × ℤ) := [("CST", -21600)]

/-- Table lookup for a zone abbreviation. -/
def lookupTz (z : String) : Option ℤ :=
  (tzinfos.find? (fun p => p.1 == z)).map (fun p => p.2)

/-- The UTC offset effectively applied by
`parse(x, tzinfos=...).astimezone(tzutc())`: a table hit attaches the fixed
offset; the UTC aliases recognised by `dateutil` give offset zero; any other
zone abbreviation (and an absent zone) leaves the datetime naive, and
`astimezone` then interprets it in the host machine's local zone, modelled by
the explicit `localOff` parameter. -/
def resolvedOffset (localOff : ℤ) : Option String → ℤ
  | none => localOff
  | some z =>
    match lookupTz z with
    | some off => off
    | none => if z == "UTC" || z == "GMT" || z == "Z" then 0 else localOff

/-- Decimal digit character of `n % 10`. -/
def dig (n : ℕ) : Char := Char.ofNat (48 + n % 10)

/-- Two-digit zero-padded decimal rendering (faithful to `%m`/`%d`/`%H`/`%M`/`%S`
for values below 100). -/
def pad2 (n : ℕ) : List Char := [dig (n / 10), dig n]

/-- Four-digit zero-padded decimal rendering (faithful to `%Y` for years in
1..9999, which the `datetime` range guarantees). -/
def pad4 (n : ℕ) : List Char := [dig (n / 1000), dig (n / 100), dig (n / 10), dig n]

/-- Model of `strftime("%Y-%m-%d %H:%M:%S.%f")` (microseconds are always zero
for the covered grammar). -/
def renderTS (dt : DT) : String :=
  ⟨pad4 dt.year.toNat ++ '-' :: pad2 dt.month ++ '-' :: pad2 dt.day ++
   ' ' :: pad2 dt.hour ++ ':' :: pad2 dt.minute ++ ':' :: pad2 dt.second ++
   ['.', '0', '0', '0', '0', '0', '0']⟩

/-- Lines 222–230 of the source: parse `last_update`, convert to UTC, format.
A missing field raises `TypeError` inside the first `apply`; an unparsable
text raises `ParserError`; leaving the `datetime` range raises
`OverflowError`. -/
def last_update_of_text (localOff : ℤ) : Option String → Except String String
  | none => .error "TypeError: parser argument is None"
  | some s =>
    match parseLastUpdate s.data with
    | none => .error "ParserError: unknown string format"
    | some (dt, z) =>
      ((addSecondsV dt (-(resolvedOffset localOff z))).map renderTS).elim
        (.error "OverflowError: date value out of range") .ok

/-- Fixed-precision shape `YYYY-MM-DD HH:MM:SS.ffffff`: 26 characters with
digits and separators at fixed positions. -/
def tsShapeB (s : String) : Bool :=
  match s.data with
  | [y1, y2, y3, y4, s1, m1, m2, s2, d1, d2, s3, h1, h2, s4, n1, n2, s5, c1, c2, s6,
     f1, f2, f3, f4, f5, f6] =>
    y1.isDigit && y2.isDigit && y3.isDigit && y4.isDigit && s1 == '-' &&
    m1.isDigit && m2.isDigit && s2 == '-' && d1.isDigit && d2.isDigit && s3 == ' ' &&
    h1.isDigit && h2.isDigit && s4 == ':' && n1.isDigit && n2.isDigit && s5 == ':' &&
    c1.isDigit && c2.isDigit && s6 == '.' &&
    f1.isDigit && f2.isDigit && f3.isDigit && f4.isDigit && f5.isDigit && f6.isDigit
  | _ => false

example : parseLastUpdate "2023-02-24 19:53:00 CST".data =
    some (⟨2023, 2, 24, 19, 53, 0⟩, some "CST") := by decide
example : last_update_of_text 0 (some "2023-02-24 19:53:00 CST") =
    .ok "2023-02-25 01:53:00.000000" := by decide
example : last_update_of_text 0 (some "2023-02-24 19:53:00 PST") =
    .ok "2023-02-24 19:53:00.000000" := by decide
example : last_update_of_text (-28800) (some "2023-02-24 19:53:00 PST") =
    .ok "2023-02-25 03:53:00.000000" := by decide
example : last_update_of_text 0 (some "Feb 24 2023") = .error "ParserError: unknown string format" := by decide

/-! ## Normalizer (`transform_weather_data`) -/

/-- Effectful map over a batch: the first element on which `f` raises aborts
the whole column operation, as a raising pandas column expression aborts the
whole task. -/
def traverseE {α β : Type} (f : α → Except String β) : List α → Except String (List β)
  | [] => .ok []
  | a :: as => do
    let b ← f a
    let bs ← traverseE f as
    .ok (b :: bs)

/-- Lines 160–162:
`df[["city","state"]] = df["location"].str.split(", ", expand=True)` followed
by `.astype(str)`.  `str.split` splits on every occurrence of `", "`;
`expand=True` pads each row to the batch-wide maximum part count with `None`
(which `astype(str)` turns into the string `"None"`); assigning the expanded
frame to the two named columns raises `ValueError` unless that maximum is
exactly 2. -/
def splitLocationBatch (locs : List String) : Except String (List (String × String)) :=
  let parts := locs.map (fun l => splitCommaSpace l.data)
  let ncols : ℕ := parts.foldr (fun p m => max p.length m) 0
  if ncols = 2 then
    .ok (parts.map (fun p =>
      match p with
      | [c] => ((⟨c⟩ : String), "None")
      | c :: s :: _ => ((⟨c⟩ : String), (⟨s⟩ : String))
      | [] => ("", "None")))
  else .error "ValueError: Columns must be same length as key"

/-- Line 165: `.astype(float)` on one of the `lat`/`lon` token columns. -/
def float_of_text (s : String) : Except String ℚ :=
  match parsePyFloat s.data with
  | some q => .ok q
  | none => .error "ValueError: could not convert string to float"

/-- Lines 168–170: `int(row["elev_ft"]) if row["elev_ft"] != "NA" else None`. -/
def elev_of_text (s : String) : Except String (Option ℤ) :=
  if s == "NA" then .ok none
  else
    match parsePyInt s.data with
    | some n => .ok (some n)
    | none => .error "ValueError: invalid literal for int"

/-- Line 174 and line 175: `(temp_f - 32) * 5 / 9`, rounded to the nearest
integer.  The float intermediate is never a half-way point (an exact
`(f-32)*5/9` sits at distance at least 1/18 from any half-integer, far beyond
float error), so exact rational rounding is faithful. -/
def temp_c_of_f (n : ℕ) : ℤ := round (((n : ℚ) - 32) * 5 / 9)

/-- Line 173: `df["temperature"].str.extract("(\d+)").astype(int)` plus the
derived Celsius column.  A missing temperature or one without an integer
leaves a `NaN` that `astype(int)` refuses to cast, raising and killing the
whole batch. -/
def temp_of_text : Option String → Except String (ℕ × ℤ)
  | none => .error "IntCastingNaNError: temperature missing"
  | some s =>
    match firstNatRun s.data with
    | none => .error "IntCastingNaNError: no integer in temperature"
    | some n => .ok (n, temp_c_of_f n)

/-- Lines 178–180: first integer percentage over 100; `astype(float)` keeps
`NaN` (null) when nothing matches. -/
def humidity_of_text (o : Option String) : Option ℚ :=
  (o.bind (fun s => firstNatRun s.data)).map (fun n => (n : ℚ) / 100)

/-- Lines 183–186: first integer with `fillna(0)`; the subsequent
`.replace("Calm", 0)` acts on an already-integer column and is a no-op. -/
def wind_speed_of_text (o : Option String) : ℕ :=
  (o.bind (fun s => firstNatRun s.data)).getD 0

/-- Python `"in" in x`: whether the two-character substring occurs anywhere. -/
def containsIn : List Char → Bool
  | 'i' :: 'n' :: _ => true
  | _ :: rest => containsIn rest
  | [] => false

/-- Lines 189–191: the barometer lambda.  `"in" in x` on a missing value is
`"in" in None`, a `TypeError` that kills the batch; with the unit present and
the text not the `"NA"` sentinel, the first whitespace-delimited word is
parsed as a float and scaled by 33.8639; otherwise the result is null. -/
def barometer_of_text : Option String → Except String (Option ℚ)
  | none => .error "TypeError: argument of type NoneType is not iterable"
  | some s =>
    if containsIn s.data && s != "NA" then
      match pyFirstWord s.data with
      | none => .error "IndexError: list index out of range"
      | some w =>
        match parsePyFloat w with
        | none => .error "ValueError: could not convert string to float"
        | some q => .ok (some (q * (338639 / 10000)))
    else .ok none

/-- Line 192: `.round(2)` on the barometer column. -/
def rounded_barometer (o : Option String) : Except String (Option ℚ) :=
  (barometer_of_text o).map (fun r => r.map round2)

/-- Lines 195–197: paired extraction, `astype(int)`.  A missing dewpoint or a
text without two groups leaves `NaN`, and `astype(int)` raises. -/
def dewpoint_of_text : Option String → Except String (ℕ × ℕ)
  | none => .error "IntCastingNaNError: dewpoint missing"
  | some s =>
    match extractPairNat s.data with
    | none => .error "IntCastingNaNError: no pair in dewpoint"
    | some p => .ok p

/-- Lines 200–205: first decimal-or-integer number of the visibility text,
rounded to 2 decimals, null when absent. -/
def vis_of_text (o : Option String) : Option ℚ :=
  (o.bind (fun s => firstDecOrInt s.data)).map round2

/-- Lines 208–220, for one row: the wind-chill pair.  The first extract
block is immediately overwritten by the second; the effective computation is
`str.extract("(\d+).*?(\d+)").astype(float).fillna(0).replace(0, None)`.
Since pandas 1.4.0 an explicitly passed `value=None` is respected, so
`replace(0, None)` replaces each zero with null, elementwise down each
column: an absent field or a text without two integers becomes 0 via
`fillna(0)` and then null, and a literal zero reading becomes null. -/
def wind_chill_of_text (o : Option String) : Option ℚ × Option ℚ :=
  let base : ℚ × ℚ :=
    match o.bind (fun s => extractPairNat s.data) with
    | some p => ((p.1 : ℚ), (p.2 : ℚ))
    | none => (0, 0)
  (if base.1 = 0 then none else some base.1,
   if base.2 = 0 then none else some base.2)

/-- The wind-chill column pass: `replace(0, None)` with an explicit null
value has no cross-row effect, so the column operation is the elementwise
map of `wind_chill_of_text`. -/
def wind_chill_pass (os : List (Option String)) : List (Option ℚ × Option ℚ) :=
  os.map wind_chill_of_text

/-- The fully typed record emitted by the Normalizer (columns after the
line 233 `drop` and the line 236 null replacement). -/
structure TypedRecord where
  location : String
  city : String
  state : String
  lat : ℚ
  lon : ℚ
  elev_ft : Option ℤ
  humidity : Option ℚ
  wind_speed : ℕ
  barometer : Option ℚ
  dewpoint_f : ℕ
  dewpoint_c : ℕ
  vis_miles : Option ℚ
  wind_chill_f : Option ℚ
  wind_chill_c : Option ℚ
  temp_f : ℕ
  temp_c : ℤ
  last_update : String
  deriving DecidableEq, Inhabited

/-- Model of `transform_weather_data`: the column passes in source order,
sequenced so that the first raising pass aborts the whole call, then the
assembly of the typed batch.  `localOff` is the host machine's UTC offset,
consulted only for timestamps whose zone abbreviation the `tzinfos` table
does not know (see `resolvedOffset`). -/
def normalize (localOff : ℤ) (batch : List RawRecord) : Except String (List TypedRecord) := do
  let cityStates ← splitLocationBatch (batch.map (fun r => r.location))
  let lats ← traverseE float_of_text (batch.map (fun r => r.lat))
  let lons ← traverseE float_of_text (batch.map (fun r => r.lon))
  let elevs ← traverseE elev_of_text (batch.map (fun r => r.elev))
  let temps ← traverseE temp_of_text (batch.map (fun r => r.temperature))
  let hums := batch.map (fun r => humidity_of_text r.humidity)
  let winds := batch.map (fun r => wind_speed_of_text r.wind_speed)
  let baros ← traverseE rounded_barometer (batch.map (fun r => r.barometer))
  let dews ← traverseE dewpoint_of_text (batch.map (fun r => r.dewpoint))
  let viss := batch.map (fun r => vis_of_text r.vis_miles)
  let wcs := wind_chill_pass (batch.map (fun r => r.wind_chill))
  let lus ← traverseE (last_update_of_text localOff) (batch.map (fun r => r.last_update))
  .ok ((List.range batch.length).map (fun i =>
    { location := (batch.getD i default).location
      city := (cityStates.getD i ("", "")).1
      state := (cityStates.getD i ("", "")).2
      lat := lats.getD i 0
      lon := lons.getD i 0
      elev_ft := elevs.getD i none
      humidity := hums.getD i none
      wind_speed := winds.getD i 0
      barometer := baros.getD i none
      dewpoint_f := (dews.getD i (0, 0)).1
      dewpoint_c := (dews.getD i (0, 0)).2
      vis_miles := viss.getD i none
      wind_chill_f := (wcs.getD i (none, none)).1
      wind_chill_c := (wcs.getD i (none, none)).2
      temp_f := (temps.getD i (0, 0)).1
      temp_c := (temps.getD i (0, 0)).2
      last_update := lus.getD i "" }))

/-! ## Loader (`write_weather_data_to_bigquery`, lines 280–295) -/

/-- Dataset id constant of the source. -/
def DATASET_ID : String := "weather-dw"

/-- Table id constant of the source. -/
def DAILY_TABLE_ID : String := "daily"

/-- The 17-column destination schema constant of the source
(name, type, mode). -/
def SCHEMA : List (String × String × String) := [
  ("location", "STRING", "REQUIRED"), ("lat", "FLOAT", "REQUIRED"),
  ("lon", "FLOAT", "REQUIRED"), ("elev_ft", "INTEGER", "REQUIRED"),
  ("humidity", "FLOAT", "REQUIRED"), ("wind_speed", "INTEGER", "REQUIRED"),
  ("barometer", "FLOAT", "REQUIRED"), ("vis_miles", "FLOAT", "REQUIRED"),
  ("dewpoint_f", "INTEGER", "REQUIRED"), ("dewpoint_c", "INTEGER", "REQUIRED"),
  ("wind_chill_f", "FLOAT", "REQUIRED"), ("wind_chill_c", "FLOAT", "REQUIRED"),
  ("city", "STRING", "REQUIRED"), ("state", "STRING", "REQUIRED"),
  ("temp_f", "INTEGER", "REQUIRED"), ("temp_c", "INTEGER", "REQUIRED"),
  ("last_update", "STRING", "REQUIRED")]

/-- Modelled from the spec: the warehouse collaborator state (§4.3, §6) that
the BigQuery client manipulates — the datasets that exist and the tables that
exist with their schema definitions.  `get_dataset`/`get_table` raise
`NotFound` exactly when the object is absent, and `create_dataset`/
`create_table` add it; the `try/except NotFound` control flow below is from
source lines 280–295. -/
structure BQState where
  datasets : List String
  tables : List ((String × String) × List (String × String × String))
  deriving DecidableEq

/-- Definition of the table currently stored for a (dataset, table) key. -/
def lookupTable (st : BQState) (ds tbl : String) : Option (List (String × String × String)) :=
  (st.tables.find? (fun e => e.1 == (ds, tbl))).map (fun e => e.2)

/-- Lines 280–295: get the dataset, creating it only on `NotFound`; then get
the table, creating it with `SCHEMA` only on `NotFound`. -/
def ensure_schema (st : BQState) : BQState :=
  let st1 := if DATASET_ID ∈ st.datasets then st
             else { st with datasets := DATASET_ID :: st.datasets }
  match lookupTable st1 DATASET_ID DAILY_TABLE_ID with
  | some _ => st1
  | none => { st1 with tables := ((DATASET_ID, DAILY_TABLE_ID), SCHEMA) :: st1.tables }

/-! ## Helper lemmas -/

lemma takeWhile_dropWhile_append (p : Char → Bool) (ds rest : List Char)
    (hds : ∀ c ∈ ds, p c = true) (hrest : ∀ c ∈ rest.take 1, p c = false) :
    (ds ++ rest).takeWhile p = ds ∧ (ds ++ rest).dropWhile p = rest := by
  induction ds with
  | nil =>
    cases rest with
    | nil => simp
    | cons r rs =>
      have hr : p r = false := hrest r (by simp)
      simp [List.takeWhile, List.dropWhile, hr]
  | cons c cs ih =>
    have hc : p c = true := hds c (by simp)
    have ih' := ih (fun x hx => hds x (by simp [hx]))
    simp [List.takeWhile, List.dropWhile, hc, ih'.1, ih'.2]

lemma firstRunSplit_skip (pre xs : List Char) (hpre : ∀ c ∈ pre, c.isDigit = false) :
    firstRunSplit (pre ++ xs) = firstRunSplit xs := by
  induction pre with
  | nil => rfl
  | cons c cs ih =>
    have hc : c.isDigit = false := hpre c (by simp)
    simp [firstRunSplit, hc, ih (fun x hx => hpre x (by simp [hx]))]

lemma firstRunSplit_run (d rest : List Char) (hne : d ≠ [])
    (hall : ∀ c ∈ d, c.isDigit = true) (hrest : ∀ c ∈ rest.take 1, c.isDigit = false) :
    firstRunSplit (d ++ rest) = some (d, rest) := by
  cases d with
  | nil => exact absurd rfl hne
  | cons c cs =>
    have hc : c.isDigit = true := hall c (by simp)
    have h := takeWhile_dropWhile_append Char.isDigit cs rest
      (fun x hx => hall x (by simp [hx])) hrest
    simp [firstRunSplit, hc, h.1, h.2]

lemma firstNatRun_of_shape (pre d rest : List Char) (hpre : ∀ c ∈ pre, c.isDigit = false)
    (hne : d ≠ []) (hall : ∀ c ∈ d, c.isDigit = true)
    (hrest : ∀ c ∈ rest.take 1, c.isDigit = false) :
    firstNatRun (pre ++ d ++ rest) = some (digitsVal d) := by
  rw [firstNatRun, List.append_assoc, firstRunSplit_skip pre _ hpre,
    firstRunSplit_run d rest hne hall hrest]
  rfl

lemma containsIn_append_in (xs ys : List Char) :
    containsIn (xs ++ 'i' :: 'n' :: ys) = true := by
  induction xs with
  | nil => rfl
  | cons c cs ih =>
    cases cs with
    | nil =>
      by_cases hc : c = 'i'
      · subst hc; rfl
      · simp [containsIn, hc]
    | cons c2 cs2 =>
      by_cases hc : c = 'i'
      · subst hc
        by_cases hc2 : c2 = 'n'
        · subst hc2; rfl
        · simpa [containsIn, hc2] using ih
      · simpa [containsIn, hc] using ih

lemma isOk_bind {α β : Type} (x : Except String α) (f : α → Except String β) :
    isOk (x >>= f) = true ↔ ∃ a, x = .ok a ∧ isOk (f a) = true := by
  cases x <;> simp [Bind.bind, Except.bind, isOk]

lemma traverseE_ne_ok_of_mem {α β : Type} (f : α → Except String β) (l : List α) (a : α)
    (ha : a ∈ l) (hf : ∀ x, f a ≠ .ok x) : ∀ ys, traverseE f l ≠ .ok ys := by
  induction l with
  | nil => cases ha
  | cons b bs ih =>
    intro ys h
    rcases List.mem_cons.mp ha with hab | hmem
    · subst hab
      cases hfb : f a with
      | error e => rw [traverseE, hfb] at h; exact Except.noConfusion h
      | ok x => exact hf x hfb
    · cases hfb : f b with
      | error e => rw [traverseE, hfb] at h; exact Except.noConfusion h
      | ok x =>
      cases hbs : traverseE f bs with
      | error e =>
        rw [traverseE, hfb] at h
        simp only [Bind.bind, Except.bind, hbs] at h
        exact Except.noConfusion h
      | ok xs => exact ih hmem xs hbs

/-! ## Claim C3 -/

/-- C3: for every raw temperature text made of a digit-free prefix, a positive
integer, and a degree symbol (then anything), the Normalizer sets `temp_f` to
that first integer `n` and `temp_c` to `round((n - 32) * 5 / 9)`. -/
theorem temp_first_integer_and_celsius (s : String) (pre d post : List Char) (n : ℕ)
    (hs : s.data = pre ++ d ++ '°' :: post)
    (hpre : ∀ c ∈ pre, c.isDigit = false)
    (hne : d ≠ []) (hall : ∀ c ∈ d, c.isDigit = true)
    (hn : digitsVal d = n) (hpos : 0 < n) :
    temp_of_text (some s) = .ok (n, round (((n : ℚ) - 32) * 5 / 9)) := by
  have hdeg : ∀ c ∈ ('°' :: post).take 1, c.isDigit = false := by
    intro c hc
    simp only [List.take, List.mem_singleton] at hc
    subst hc
    decide
  simp only [temp_of_text, hs, firstNatRun_of_shape pre d ('°' :: post) hpre hne hall hdeg, hn]
  rfl

/-- Witness for C3 at the spec's example: `"72°F"` yields `temp_f = 72` and
`temp_c = 22`. -/
theorem temp_first_integer_and_celsius_witness :
    temp_of_text (some "72°F") = .ok (72, 22) := by
  have h := temp_first_integer_and_celsius "72°F" [] ['7', '2'] ['F'] 72
    (by decide) (by decide) (by decide) (by decide) (by decide) (by decide)
  rw [h]
  simp only [Except.ok.injEq, Prod.mk.injEq]
  norm_num [round_eq]

/-! ## Claim C10 -/

/-- C10: the paired dewpoint / wind-chill extraction captures unsigned digit
runs only, so on a text whose two readings are negative (digit-free prefix,
minus sign, digits, digit-free separator, minus sign, digits), the extracted
(F, C) values are the absolute values of the two readings — the minus signs
are silently discarded — and this is what the dewpoint pass and the
wind-chill pass receive. -/
theorem paired_extraction_drops_signs (s : String) (pre d1 sep d2 post : List Char)
    (hs : s.data = pre ++ '-' :: d1 ++ sep ++ '-' :: d2 ++ post)
    (hpre : ∀ c ∈ pre, c.isDigit = false)
    (hd1 : d1 ≠ []) (hall1 : ∀ c ∈ d1, c.isDigit = true)
    (hsep : sep ≠ []) (hallsep : ∀ c ∈ sep, c.isDigit = false)
    (hd2 : d2 ≠ []) (hall2 : ∀ c ∈ d2, c.isDigit = true)
    (hpost : ∀ c ∈ post.take 1, c.isDigit = false)
    (hz1 : 0 < digitsVal d1) (hz2 : 0 < digitsVal d2) :
    extractPairNat s.data = some (digitsVal d1, digitsVal d2) ∧
    dewpoint_of_text (some s) = .ok (digitsVal d1, digitsVal d2) ∧
    wind_chill_pass [some s] = [(some (digitsVal d1 : ℚ), some (digitsVal d2 : ℚ))] := by
  have hsep1 : ∀ c ∈ (sep ++ '-' :: d2 ++ post).take 1, c.isDigit = false := by
    cases sep with
    | nil => exact absurd rfl hsep
    | cons x xs =>
      intro c hc
      simp only [List.cons_append, List.take, List.mem_singleton] at hc
      subst hc
      apply hallsep
      simp
  have h1 : firstRunSplit s.data = some (d1, sep ++ '-' :: d2 ++ post) := by
    have : s.data = (pre ++ ['-']) ++ (d1 ++ (sep ++ '-' :: d2 ++ post)) := by
      rw [hs]; simp
    rw [this, firstRunSplit_skip (pre ++ ['-']) _ (by
      intro c hc
      rcases List.mem_append.mp hc with h | h
      · exact hpre c h
      · simp only [List.mem_singleton] at h; subst h; decide)]
    exact firstRunSplit_run d1 _ hd1 hall1 hsep1
  have h2 : firstRunSplit (sep ++ '-' :: d2 ++ post) = some (d2, post) := by
    have : sep ++ '-' :: d2 ++ post = (sep ++ ['-']) ++ (d2 ++ post) := by simp
    rw [this, firstRunSplit_skip (sep ++ ['-']) _ (by
      intro c hc
      rcases List.mem_append.mp hc with h | h
      · exact hallsep c h
      · simp only [List.mem_singleton] at h; subst h; decide)]
    exact firstRunSplit_run d2 post hd2 hall2 hpost
  have hpair : extractPairNat s.data = some (digitsVal d1, digitsVal d2) := by
    simp only [extractPairNat, h1, h2]
  refine ⟨hpair, ?_, ?_⟩
  · rw [dewpoint_of_text, hpair]
  · have hq1 : ((digitsVal d1 : ℚ)) ≠ 0 := by
      exact_mod_cast Nat.pos_iff_ne_zero.mp hz1
    have hq2 : ((digitsVal d2 : ℚ)) ≠ 0 := by
      exact_mod_cast Nat.pos_iff_ne_zero.mp hz2
    simp [wind_chill_pass, wind_chill_of_text, hpair, hq1, hq2]

/-- Witness for C10 at the motivating input: `"-5°F (-21°C)"` extracts the
pair (5, 21), i.e. the absolute values of −5 and −21. -/
theorem paired_extraction_drops_signs_witness :
    extractPairNat "-5°F (-21°C)".data = some (5, 21) ∧
    dewpoint_of_text (some "-5°F (-21°C)") = .ok (5, 21) ∧
    wind_chill_pass [some "-5°F (-21°C)"] = [(some (5 : ℚ), some (21 : ℚ))] := by
  have h := paired_extraction_drops_signs "-5°F (-21°C)" [] ['5'] ['°', 'F', ' ', '(']
    ['2', '1'] ['°', 'C', ')'] (by decide) (by decide) (by decide) (by decide) (by decide)
    (by decide) (by decide) (by decide) (by decide) (by decide) (by decide)
  have e1 : digitsVal ['5'] = 5 := by decide
  have e2 : digitsVal ['2', '1'] = 21 := by decide
  rw [e1, e2] at h
  exact h

/-! ## Claim C5 -/

/-- C5 (amended): a barometer text whose first whitespace-delimited word is a
parsable decimal number and which carries the inches unit is converted to
millibars by multiplying by 33.8639 and rounding to 2 decimals — in
particular `"30.12 in"` yields 1019.98, not the 1019.64 the claim instance
names (see the counterexample); a text without the unit substring, and the
`"NA"` sentinel, give null. -/
theorem barometer_conversion_amended :
    (∀ (s : String) (w rest : List Char) (q : ℚ),
      s.data = w ++ ' ' :: 'i' :: 'n' :: rest →
      parsePyFloat w = some q →
      (∀ c ∈ w, c.isWhitespace = false) → w ≠ [] →
      rounded_barometer (some s) = .ok (some (round2 (q * (33.8639 : ℚ))))) ∧
    (∀ s : String, containsIn s.data = false → rounded_barometer (some s) = .ok none) ∧
    rounded_barometer (some "NA") = .ok none := by
  refine ⟨?_, ?_, by decide⟩
  · intro s w rest q hs hq hw hwne
    have hin : containsIn s.data = true := by
      have : s.data = (w ++ [' ']) ++ 'i' :: 'n' :: rest := by rw [hs]; simp
      rw [this]
      exact containsIn_append_in _ _
    have hne : s ≠ "NA" := by
      intro h
      have := congrArg (fun t => t.data.length) h
      simp only [hs] at this
      simp at this
      omega
    have hbne : (s != "NA") = true := bne_iff_ne.mpr hne
    have hword : pyFirstWord s.data = some w := by
      cases w with
      | nil => exact absurd rfl hwne
      | cons x xs =>
        have hx : x.isWhitespace = false := hw x (by simp)
        have htd1 := (takeWhile_dropWhile_append (fun c => !c.isWhitespace) (x :: xs)
          (' ' :: 'i' :: 'n' :: rest)
          (by intro c hc; simp [hw c hc])
          (by intro c hc; simp only [List.take, List.mem_singleton] at hc; subst hc; decide)).1
        rw [pyFirstWord, hs]
        simp only [List.cons_append] at htd1 ⊢
        simp only [List.dropWhile, hx]
        rw [htd1]
        simp
    have hlit : (33.8639 : ℚ) = 338639 / 10000 := by norm_num
    simp only [rounded_barometer, barometer_of_text, hin, hbne, hword, hq, Bool.and_self,
      if_true, Except.map, Option.map, hlit]
  · intro s h
    simp [rounded_barometer, barometer_of_text, h, Except.map]

/-- Witness for C5: `"2.5 in"` converts to 84.66 millibars, and the unitless
text `"30.12"` gives null. -/
theorem barometer_conversion_amended_witness :
    rounded_barometer (some "2.5 in") = .ok (some (84.66 : ℚ)) ∧
    rounded_barometer (some "30.12") = .ok none := by
  constructor
  · have h := barometer_conversion_amended.1 "2.5 in" "2.5".data [] (5 / 2)
      (by decide)
      (by simp +decide [parsePyFloat, parseUnsignedFloat, digitsVal]; norm_num)
      (by decide) (by decide)
    rw [h]
    simp only [Except.ok.injEq, Option.some.injEq]
    norm_num [round2, round_eq]
  · exact barometer_conversion_amended.2.1 "30.12" (by decide)

/-- C5 counterexample: the code maps `"30.12 in"` to 1019.98 millibars
(30.12 × 33.8639 = 1019.980668, rounded to 1019.98), which is not within
±0.01 of the 1019.64 the claim states. -/
theorem barometer_example_counterexample :
    rounded_barometer (some "30.12 in") = .ok (some ((101998 : ℚ) / 100)) ∧
    ¬ |(101998 : ℚ) / 100 - 1019.64| ≤ 1 / 100 := by
  constructor
  · simp +decide [rounded_barometer, barometer_of_text, containsIn, pyFirstWord,
      parsePyFloat, parseUnsignedFloat, digitsVal]
    simp only [Except.map, Option.map]
    norm_num [round2, round_eq]
  · rw [abs_sub_le_iff]
    intro h
    rcases h with ⟨h1, h2⟩
    norm_num at h1
/-! ## Claim C4 -/

lemma splitCommaSpace_ne_nil (xs : List Char) : splitCommaSpace xs ≠ [] := by
  rw [splitCommaSpace.eq_def]
  split
  · simp
  · simp
  · split <;> simp

lemma splitCommaSpace_length_one (xs : List Char)
    (h : (splitCommaSpace xs).length = 1) : splitCommaSpace xs = [xs] := by
  induction xs using splitCommaSpace.induct with
  | case1 => rfl
  | case2 rest ih =>
    exfalso
    rw [splitCommaSpace] at h
    simp only [List.length_cons, Nat.add_left_eq_self] at h
    exact splitCommaSpace_ne_nil rest (List.length_eq_zero.mp h)
  | case3 c rest hexcl hd tl hsr ih =>
    have hcons : splitCommaSpace (c :: rest) = (c :: hd) :: tl := by
      simp only [splitCommaSpace, hsr]
    rw [hcons] at h ⊢
    simp only [List.length_cons, Nat.add_left_eq_self] at h
    have htl : tl = [] := List.length_eq_zero.mp h
    subst htl
    have hone : splitCommaSpace rest = [rest] := by
      apply ih
      rw [hsr]
      rfl
    rw [hsr] at hone
    simp only [List.cons.injEq, and_true] at hone
    rw [hone]
  | case4 c rest hexcl hsr ih =>
    exact absurd hsr (splitCommaSpace_ne_nil rest)

lemma foldr_max_le {α : Type} (parts : List (List α)) (n : ℕ)
    (h : ∀ p ∈ parts, p.length ≤ n) :
    parts.foldr (fun p m => max p.length m) 0 ≤ n := by
  induction parts with
  | nil => simp
  | cons p ps ih =>
    simp only [List.foldr]
    exact max_le (h p (by simp)) (ih fun q hq => h q (by simp [hq]))

lemma le_foldr_max {α : Type} (parts : List (List α)) (p : List α) (hp : p ∈ parts) :
    p.length ≤ parts.foldr (fun p m => max p.length m) 0 := by
  induction parts with
  | nil => cases hp
  | cons q ps ih =>
    rcases List.mem_cons.mp hp with h | h
    · subst h
      exact le_max_left _ _
    · exact le_trans (ih h) (le_max_right _ _)

/-- C4 (amended): the Normalizer splits each location on every `", "`
occurrence (not only the first); when every location in the batch has at
most one separator and at least one location has one, the two-separator-part
locations yield their parts as city/state, while a location with no
separator yields the whole string as city and the string `"None"` — not the
empty string — as state; a batch in which no location has a separator
instead raises `ValueError` (see the counterexample). -/
theorem split_location_two_part_batches (locs : List String)
    (hmax : ∀ l ∈ locs, (splitCommaSpace l.data).length ≤ 2)
    (hex : ∃ l ∈ locs, (splitCommaSpace l.data).length = 2) :
    splitLocationBatch locs = .ok (locs.map (fun l =>
      match splitCommaSpace l.data with
      | [a, b] => ((⟨a⟩ : String), (⟨b⟩ : String))
      | _ => (l, "None"))) := by
  have hub : (locs.map (fun l => splitCommaSpace l.data)).foldr
      (fun p m => max p.length m) 0 ≤ 2 := by
    apply foldr_max_le
    intro p hp
    rcases List.mem_map.mp hp with ⟨l, hl, rfl⟩
    exact hmax l hl
  have hlb : 2 ≤ (locs.map (fun l => splitCommaSpace l.data)).foldr
      (fun p m => max p.length m) 0 := by
    rcases hex with ⟨l, hl, h2⟩
    rw [← h2]
    exact le_foldr_max _ _ (List.mem_map_of_mem _ hl)
  rw [splitLocationBatch]
  simp only [le_antisymm hub hlb, if_true, List.map_map, Except.ok.injEq]
  apply List.map_congr_left
  intro l hl
  simp only [Function.comp]
  rcases hcase : splitCommaSpace l.data with _ | ⟨a, _ | ⟨b, rest⟩⟩
  · exact absurd hcase (splitCommaSpace_ne_nil _)
  · have : splitCommaSpace l.data = [l.data] := by
      apply splitCommaSpace_length_one
      rw [hcase]
      rfl
    rw [hcase] at this
    simp only [List.cons.injEq, and_true] at this
    subst this
    obtain ⟨ld⟩ := l
    rfl
  · have hle := hmax l hl
    rw [hcase] at hle
    simp only [List.length_cons] at hle
    have : rest = [] := List.length_eq_zero.mp (by omega)
    subst this
    rfl

/-- Witness for C4: a batch with one two-part location and one separator-free
location splits into ("Denver", "CO") and ("Tacoma", "None"). -/
theorem split_location_two_part_batches_witness :
    splitLocationBatch ["Denver, CO", "Tacoma"] =
      .ok [("Denver", "CO"), ("Tacoma", "None")] := by
  have h := split_location_two_part_batches ["Denver, CO", "Tacoma"]
    (by decide) ⟨"Denver, CO", by decide, by decide⟩
  rw [h]
  decide

/-- A fully well-formed raw record, the baseline for the concrete batches
used below; every field parses cleanly. -/
def recBase : RawRecord :=
  { location := "Denver, CO"
    lat := "39.74"
    lon := "-104.992"
    elev := "5280"
    temperature := some "72°F"
    humidity := some "63%"
    wind_speed := some "7 mph"
    barometer := some "30.12 in (1019.8 mb)"
    dewpoint := some "45°F (7°C)"
    vis_miles := some "10.00 mi"
    wind_chill := some "40°F (4°C)"
    last_update := some "2023-02-24 19:53:00 CST" }

/-- C4 counterexample: the claim says a location with no `", "` yields
city = whole string and state = "" without raising; on a batch whose single
location is "Denver" the code instead raises `ValueError` and normalization
aborts, and in a mixed batch the separator-free location's state is the
string `"None"`, not the empty string. -/
theorem split_location_counterexample :
    isOk (normalize 0 [{ recBase with location := "Denver" }]) = false ∧
    splitLocationBatch ["Tacoma", "Denver, CO"] =
      .ok [("Tacoma", "None"), ("Denver", "CO")] := by
  constructor
  · decide
  · decide

/-! ## Claim C7 -/

/-- C7: for every wind-chill text, if no two integer substrings are found or
the extracted pair parses to literal zero, the Normalizer sets both
`wind_chill_f` and `wind_chill_c` to null, never to zero (first conjunct:
`replace(0, None)` nulls every zero left by `fillna(0)` or by a literal zero
reading); in particular the pair `"0°F (0°C)"` and an absent field both
normalize to null/null, also through the whole pipeline (remaining
conjuncts). -/
theorem wind_chill_zero_to_null :
    (∀ o : Option String,
      (o.bind (fun s => extractPairNat s.data) = none ∨
       o.bind (fun s => extractPairNat s.data) = some (0, 0)) →
      wind_chill_of_text o = (none, none)) ∧
    (normalize 0 [{ recBase with wind_chill := some "0°F (0°C)" }]).toOption.map
        (fun l => l.map fun t => (t.wind_chill_f, t.wind_chill_c)) =
      some [(none, none)] ∧
    (normalize 0 [{ recBase with wind_chill := none }]).toOption.map
        (fun l => l.map fun t => (t.wind_chill_f, t.wind_chill_c)) =
      some [(none, none)] := by
  refine ⟨?_, by decide, by decide⟩
  intro o h
  rcases h with h | h <;> simp [wind_chill_of_text, h]

/-- Witness for C7: a wind-chill text without two integers nulls the pair. -/
theorem wind_chill_zero_to_null_witness :
    wind_chill_of_text (some "Chilly") = (none, none) :=
  wind_chill_zero_to_null.1 (some "Chilly") (Or.inl (by decide))

/-! ## Claim C1 -/

/-- C1 (amended): a record whose mandatory numeric field cannot be parsed is
not excluded individually — the failure escapes the batch boundary: if any
record's temperature text yields no integer, or any record's last_update
cannot be parsed and converted, the whole normalize call raises and produces
no output batch (hence no observable drop count). -/
theorem normalize_aborts_batch_on_mandatory_parse_failure (off : ℤ) (batch : List RawRecord) :
    (∀ r ∈ batch, (∀ x, temp_of_text r.temperature ≠ .ok x) →
      isOk (normalize off batch) = false) ∧
    (∀ r ∈ batch, (∀ x, last_update_of_text off r.last_update ≠ .ok x) →
      isOk (normalize off batch) = false) := by
  constructor
  · intro r hr hbad
    by_contra hok
    rw [Bool.not_eq_false] at hok
    rw [normalize] at hok
    simp only [isOk_bind] at hok
    obtain ⟨cs, -, lats, -, lons, -, elevs, -, temps, htemps, -⟩ := hok
    exact traverseE_ne_ok_of_mem temp_of_text _ r.temperature
      (List.mem_map_of_mem _ hr) hbad temps htemps
  · intro r hr hbad
    by_contra hok
    rw [Bool.not_eq_false] at hok
    rw [normalize] at hok
    simp only [isOk_bind] at hok
    obtain ⟨cs, -, lats, -, lons, -, elevs, -, temps, -, baros, -, dews, -, lus, hlus, -⟩ := hok
    exact traverseE_ne_ok_of_mem (last_update_of_text off) _ r.last_update
      (List.mem_map_of_mem _ hr) hbad lus hlus

/-- Witness for C1 (amended): a batch containing a record with temperature
"Hot" aborts, and so does one containing last_update "later today". -/
theorem normalize_aborts_batch_on_mandatory_parse_failure_witness :
    isOk (normalize 0 [{ recBase with temperature := some "Hot" }]) = false ∧
    isOk (normalize 0 [{ recBase with last_update := some "later today" }]) = false := by
  constructor
  · have hbad : temp_of_text (some "Hot") =
        .error "IntCastingNaNError: no integer in temperature" := by decide
    exact (normalize_aborts_batch_on_mandatory_parse_failure 0 _).1
      { recBase with temperature := some "Hot" } (by simp)
      (fun x hx => by rw [hbad] at hx; exact Except.noConfusion hx)
  · have hbad : last_update_of_text 0 (some "later today") =
        .error "ParserError: unknown string format" := by decide
    exact (normalize_aborts_batch_on_mandatory_parse_failure 0 _).2
      { recBase with last_update := some "later today" } (by simp)
      (fun x hx => by rw [hbad] at hx; exact Except.noConfusion hx)

/-- C1 counterexample: with the two-record batch whose second record has the
unparsable temperature "Hot", the claim expects the output batch to be the
first record alone; the code instead raises and emits nothing (first
conjunct), and likewise for an unparsable last_update (second conjunct),
although the first record alone normalizes to a one-record batch (third and
fourth conjuncts). -/
theorem normalize_mandatory_drop_counterexample :
    isOk (normalize 0 [recBase, { recBase with temperature := some "Hot" }]) = false ∧
    isOk (normalize 0 [recBase, { recBase with last_update := some "yesterday evening" }]) = false ∧
    isOk (normalize 0 [recBase]) = true ∧
    (normalize 0 [recBase]).toOption.map List.length = some 1 := by
  refine ⟨by decide, by decide, by decide, by decide⟩

/-! ## Claim C6 -/

lemma dig_isDigit (n : ℕ) : (dig n).isDigit = true := by
  have h : n % 10 = 0 ∨ n % 10 = 1 ∨ n % 10 = 2 ∨ n % 10 = 3 ∨ n % 10 = 4 ∨
      n % 10 = 5 ∨ n % 10 = 6 ∨ n % 10 = 7 ∨ n % 10 = 8 ∨ n % 10 = 9 := by omega
  simp only [dig]
  rcases h with h | h | h | h | h | h | h | h | h | h <;> rw [h] <;> decide

lemma tsShapeB_renderTS (dt : DT) : tsShapeB (renderTS dt) = true := by
  simp only [renderTS, pad4, pad2, tsShapeB, List.cons_append, List.nil_append]
  simp [dig_isDigit]

/-- C6 (amended): a record whose last_update carries the zone abbreviation
CST — the single entry of the code's offset table — is parsed, shifted to
UTC by the table's fixed +21600 s (independently of the host's local
offset), and rendered in the fixed 26-character format
`YYYY-MM-DD HH:MM:SS.ffffff`; a record with a zone abbreviation outside the
table still survives normalization but is converted with the host's local
offset instead (see the counterexample). -/
theorem last_update_cst_table_conversion (off : ℤ) (s : String) (dt u : DT)
    (hp : parseLastUpdate s.data = some (dt, some "CST"))
    (hu : addSecondsV dt 21600 = some u) :
    last_update_of_text off (some s) = .ok (renderTS u) ∧
    tsShapeB (renderTS u) = true := by
  have hoff : resolvedOffset off (some "CST") = -21600 := by
    simp [resolvedOffset, lookupTz, tzinfos, List.find?]
  constructor
  · simp only [last_update_of_text, hp]
    rw [hoff, neg_neg, hu]
    rfl
  · exact tsShapeB_renderTS u

/-- Witness for C6 (amended) at an arbitrary host offset of 12345 s: the CST
timestamp converts by the table offset, crossing midnight, into the fixed
format. -/
theorem last_update_cst_table_conversion_witness :
    last_update_of_text 12345 (some "2023-02-24 19:53:00 CST") =
      .ok "2023-02-25 01:53:00.000000" ∧
    tsShapeB "2023-02-25 01:53:00.000000" = true := by
  have h := last_update_cst_table_conversion 12345 "2023-02-24 19:53:00 CST"
    ⟨2023, 2, 24, 19, 53, 0⟩ ⟨2023, 2, 25, 1, 53, 0⟩ (by decide) (by decide)
  have hr : renderTS ⟨2023, 2, 25, 1, 53, 0⟩ = "2023-02-25 01:53:00.000000" := by decide
  rw [hr] at h
  exact h

/-- C6 counterexample: a record whose last_update zone is PST survives
normalization although PST is not in the offset table, and its rendered UTC
timestamp depends on the host machine's local offset, not on any table entry:
with a UTC host the local reading is taken verbatim, with a US/Pacific host
it shifts by 8 hours.  The claim that every surviving record's timestamp is
mapped through the offset table is therefore false. -/
theorem last_update_zone_counterexample :
    lookupTz "PST" = none ∧
    (normalize 0 [{ recBase with last_update := some "2023-02-24 19:53:00 PST" }]).toOption.map
        (fun l => l.map fun t => t.last_update) =
      some ["2023-02-24 19:53:00.000000"] ∧
    (normalize (-28800) [{ recBase with last_update := some "2023-02-24 19:53:00 PST" }]).toOption.map
        (fun l => l.map fun t => t.last_update) =
      some ["2023-02-25 03:53:00.000000"] := by
  refine ⟨by decide, by decide, by decide⟩

/-! ## Claim C2 -/

/-- C2 (amended): for a fetched page whose small-text block yields exactly
three numeric tokens, extraction of that target cannot fail: the RawRecord
is emitted with the target's name as location, the three tokens as
lat/lon/elev, and every labelled-row field equal to its table lookup — an
absent label degrades that field to null only.  But when the small-text
block is missing, or yields a token count other than three, the extractor
raises instead of nulling those fields (the claim's stated behavior fails:
see the counterexample, where the whole batch is lost). -/
theorem extract_degrades_labelled_fields_only (city : City) (p : Page) :
    (∀ st la lo el, p.smallTxt = some st → numTokens st.data = [la, lo, el] →
      extractOne city p = .ok
        { location := city.name
          lat := ⟨la⟩
          lon := ⟨lo⟩
          elev := ⟨el⟩
          temperature := p.forecastLrg
          humidity := findRow p.rows "Humidity"
          wind_speed := findRow p.rows "Wind Speed"
          barometer := findRow p.rows "Barometer"
          dewpoint := findRow p.rows "Dewpoint"
          vis_miles := findRow p.rows "Visibility"
          wind_chill := findRow p.rows "Wind Chill"
          last_update := findRow p.rows "Last update" }) ∧
    (p.smallTxt = none → isOk (extractOne city p) = false) ∧
    (∀ st, p.smallTxt = some st → (numTokens st.data).length ≠ 3 →
      isOk (extractOne city p) = false) := by
  refine ⟨?_, ?_, ?_⟩
  · intro st la lo el hst hts
    simp only [extractOne, hst, hts]
  · intro hst
    simp only [extractOne, hst, isOk]
  · intro st hst hlen
    simp only [extractOne, hst]
    rcases hts : numTokens st.data with _ | ⟨a, _ | ⟨b, _ | ⟨c, _ | ⟨d, rest⟩⟩⟩⟩
    · simp [isOk]
    · simp [isOk]
    · simp [isOk]
    · exact absurd (by rw [hts]; rfl) hlen
    · simp [isOk]

/-- A complete page, on which every marker the extractor looks for is
present except the Wind Speed, Dewpoint, Visibility, Wind Chill and Last
update rows. -/
def pageFull : Page :=
  { panelTitle := some "Current conditions at Portland"
    smallTxt := some "Lat: 45.51°N Lon: 122.68°W Elev: 200ft"
    forecastLrg := some "72°F"
    rows := [("Humidity", "63%"), ("Barometer", "30.12 in (1019.8 mb)")] }

/-- Witness for C2 (amended): on `pageFull` the record is emitted with the
three tokens, the present labels' values, and null for every absent label. -/
theorem extract_degrades_labelled_fields_only_witness :
    extractOne ⟨"Portland, OR", "url"⟩ pageFull = .ok
      { location := "Portland, OR"
        lat := "45.51"
        lon := "122.68"
        elev := "200"
        temperature := some "72°F"
        humidity := some "63%"
        wind_speed := none
        barometer := some "30.12 in (1019.8 mb)"
        dewpoint := none
        vis_miles := none
        wind_chill := none
        last_update := none } := by
  have h := (extract_degrades_labelled_fields_only ⟨"Portland, OR", "url"⟩ pageFull).1
    "Lat: 45.51°N Lon: 122.68°W Elev: 200ft" "45.51".data "122.68".data "200".data
    rfl (by decide)
  rw [h]
  decide

/-- A page whose small-text block holds only two numeric tokens. -/
def pageShortTokens : Page :=
  { panelTitle := some "Current conditions"
    smallTxt := some "Lat: 45.51°N Lon: 122.68°W"
    forecastLrg := some "72°F"
    rows := [("Humidity", "63%")] }

/-- C2 counterexample: two targets both fetch successfully and the first
page's lat/lon/elevation block yields only two numeric tokens.  The claim
expects a record for the first target with those three fields null and an
unaffected record for the second target; the code instead raises out of the
loop, and the whole scrape — including the perfectly extractable second
target (second conjunct) — produces nothing. -/
theorem extract_latlon_failure_counterexample :
    isOk (scrape
      (fun c => if c.name == "A" then some pageShortTokens else some pageFull)
      [⟨"A", "uA"⟩, ⟨"B", "uB"⟩]) = false ∧
    isOk (extractOne ⟨"B", "uB"⟩ pageFull) = true := by
  refine ⟨by decide, by decide⟩

/-! ## Claim C8 -/

/-- Whether a page's small-text block yields exactly the three numeric
tokens the extractor unpacks, i.e. extraction of it cannot raise. -/
def extractableB (p : Page) : Bool :=
  match p.smallTxt with
  | some s => (numTokens s.data).length == 3
  | none => false

lemma extractOne_ok_of_extractableB (c : City) (p : Page)
    (h : extractableB p = true) : ∃ r, extractOne c p = .ok r := by
  rw [extractableB] at h
  cases hst : p.smallTxt with
  | none => rw [hst] at h; exact Bool.noConfusion h
  | some st =>
    rw [hst] at h
    simp only [beq_iff_eq] at h
    rcases hts : numTokens st.data with _ | ⟨a, _ | ⟨b, _ | ⟨c', _ | ⟨d, rest⟩⟩⟩⟩
    · rw [hts] at h; simp at h
    · rw [hts] at h; simp at h
    · rw [hts] at h; simp at h
    · have hok : extractOne c p = .ok
          { location := c.name
            lat := ⟨a⟩
            lon := ⟨b⟩
            elev := ⟨c'⟩
            temperature := p.forecastLrg
            humidity := findRow p.rows "Humidity"
            wind_speed := findRow p.rows "Wind Speed"
            barometer := findRow p.rows "Barometer"
            dewpoint := findRow p.rows "Dewpoint"
            vis_miles := findRow p.rows "Visibility"
            wind_chill := findRow p.rows "Wind Chill"
            last_update := findRow p.rows "Last update" } := by
        simp only [extractOne, hst, hts]
      exact ⟨_, hok⟩
    · rw [hts] at h
      simp only [List.length_cons] at h
      omega

lemma scrape_ok_of_good (fetch : City → Option Page) (cs : List City)
    (hgood : ∀ c ∈ cs, (fetch c).all extractableB = true) :
    ∃ l, scrape fetch cs = .ok l ∧
      l.length = (cs.filter (fun c => (fetch c).isSome)).length := by
  induction cs with
  | nil => exact ⟨[], rfl, rfl⟩
  | cons c cs ih =>
    obtain ⟨l, hl, hlen⟩ := ih (fun x hx => hgood x (by simp [hx]))
    cases hf : fetch c with
    | none =>
      refine ⟨l, ?_, ?_⟩
      · rw [scrape, hf]
        exact hl
      · rw [hlen, List.filter_cons]
        simp [hf]
    | some p =>
      have hex : extractableB p = true := by
        have hg := hgood c (by simp)
        rw [hf] at hg
        simpa [Option.all] using hg
      obtain ⟨r, hr⟩ := extractOne_ok_of_extractableB c p hex
      refine ⟨r :: l, ?_, ?_⟩
      · simp only [scrape, hf, hr, Bind.bind, Except.bind, hl]
      · rw [List.filter_cons]
        simp [hf, hlen]

lemma length_filter_isSome_add (fetch : City → Option Page) (cs : List City) :
    (cs.filter (fun c => (fetch c).isSome)).length +
      (cs.filter (fun c => (fetch c).isNone)).length = cs.length := by
  induction cs with
  | nil => rfl
  | cons c cs ih =>
    cases hf : fetch c <;> simp [List.filter_cons, hf] <;> omega

/-- C8: a fetch failure for one target only skips that target: for any fetch
behavior over the 11 configured cities in which exactly one city's fetch
fails and every fetched page is extractable, the extractor finishes without
error and emits exactly 10 RawRecords. -/
theorem scrape_emits_ten_of_eleven (fetch : City → Option Page)
    (hgood : ∀ c ∈ CITIES, (fetch c).all extractableB = true)
    (hone : (CITIES.filter (fun c => (fetch c).isNone)).length = 1) :
    ∃ l, scrape fetch CITIES = .ok l ∧ l.length = 10 := by
  obtain ⟨l, hl, hlen⟩ := scrape_ok_of_good fetch CITIES hgood
  refine ⟨l, hl, ?_⟩
  have hsum := length_filter_isSome_add fetch CITIES
  have hlen11 : CITIES.length = 11 := by rfl
  omega

/-- The fetch behavior of the witness: Portland, OR fails, all other cities
return the full page. -/
def fetchTen : City → Option Page :=
  fun c => if c.name == "Portland, OR" then none else some pageFull

/-- Witness for C8: under `fetchTen` the extractor emits exactly 10 records
for the 11 configured cities. -/
theorem scrape_emits_ten_of_eleven_witness :
    ∃ l, scrape fetchTen CITIES = .ok l ∧ l.length = 10 :=
  scrape_emits_ten_of_eleven fetchTen (by decide) (by decide)

/-! ## Claim C9 -/

/-- C9: `ensure_schema` is idempotent — running it twice from any warehouse
state equals running it once (first conjunct, so the second call is a no-op
and raises nothing), and when the destination table already exists with some
definition, `ensure_schema` leaves the stored tables untouched — it never
recreates the table — and the stored definition is unchanged (second
conjunct). -/
theorem ensure_schema_idempotent :
    (∀ st : BQState, ensure_schema (ensure_schema st) = ensure_schema st) ∧
    (∀ (st : BQState) (d : List (String × String × String)),
      lookupTable st DATASET_ID DAILY_TABLE_ID = some d →
      (ensure_schema st).tables = st.tables ∧
      lookupTable (ensure_schema st) DATASET_ID DAILY_TABLE_ID = some d) := by
  have htab1 : ∀ st : BQState,
      (if DATASET_ID ∈ st.datasets then st
       else { st with datasets := DATASET_ID :: st.datasets }).tables = st.tables := by
    intro st
    split <;> rfl
  have hlook1 : ∀ st : BQState,
      lookupTable (if DATASET_ID ∈ st.datasets then st
        else { st with datasets := DATASET_ID :: st.datasets }) DATASET_ID DAILY_TABLE_ID =
      lookupTable st DATASET_ID DAILY_TABLE_ID := by
    intro st
    rw [lookupTable, lookupTable, htab1]
  have hpres : ∀ (st : BQState) (d : List (String × String × String)),
      lookupTable st DATASET_ID DAILY_TABLE_ID = some d →
      ensure_schema st = (if DATASET_ID ∈ st.datasets then st
        else { st with datasets := DATASET_ID :: st.datasets }) := by
    intro st d hd
    rw [ensure_schema]
    rw [hlook1, hd]
  have hmem : ∀ st : BQState, DATASET_ID ∈ (ensure_schema st).datasets := by
    intro st
    simp only [ensure_schema]
    set st1 := (if DATASET_ID ∈ st.datasets then st
      else { st with datasets := DATASET_ID :: st.datasets }) with hst1
    have hm1 : DATASET_ID ∈ st1.datasets := by
      rw [hst1]
      split
      · assumption
      · exact List.mem_cons_self _ _
    cases hl : lookupTable st1 DATASET_ID DAILY_TABLE_ID with
    | some d => exact hm1
    | none => exact hm1
  have hlookE : ∀ st : BQState, ∃ d,
      lookupTable (ensure_schema st) DATASET_ID DAILY_TABLE_ID = some d := by
    intro st
    simp only [ensure_schema]
    set st1 := (if DATASET_ID ∈ st.datasets then st
      else { st with datasets := DATASET_ID :: st.datasets }) with hst1
    cases hl : lookupTable st1 DATASET_ID DAILY_TABLE_ID with
    | some d => exact ⟨d, hl⟩
    | none =>
      refine ⟨SCHEMA, ?_⟩
      show lookupTable { st1 with
          tables := ((DATASET_ID, DAILY_TABLE_ID), SCHEMA) :: st1.tables }
        DATASET_ID DAILY_TABLE_ID = some SCHEMA
      simp [lookupTable, List.find?]
  constructor
  · intro st
    obtain ⟨d, hd⟩ := hlookE st
    rw [hpres (ensure_schema st) d hd]
    rw [if_pos (hmem st)]
  · intro st d hd
    constructor
    · rw [hpres st d hd, htab1]
    · rw [hpres st d hd, lookupTable, htab1, ← lookupTable]
      exact hd

/-- A warehouse state in which the dataset and the daily table already
exist. -/
def stPre : BQState :=
  { datasets := ["weather-dw"]
    tables := [(("weather-dw", "daily"), SCHEMA)] }

/-- Witness for C9: on a state where the table exists, `ensure_schema` keeps
the stored tables identical, returns the same definition, and a second call
equals the first. -/
theorem ensure_schema_idempotent_witness :
    (ensure_schema stPre).tables = stPre.tables ∧
    lookupTable (ensure_schema stPre) DATASET_ID DAILY_TABLE_ID = some SCHEMA ∧
    ensure_schema (ensure_schema stPre) = ensure_schema stPre := by
  refine ⟨?_, ?_, ensure_schema_idempotent.1 stPre⟩
  · exact (ensure_schema_idempotent.2 stPre SCHEMA (by decide)).1
  · exact (ensure_schema_idempotent.2 stPre SCHEMA (by decide)).2

end Weather
